import Mathlib

/-
Verification development for a real-estate portfolio dashboard that parses a
published Google Sheet (gviz) response into normalized portfolio units,
aggregates financial metrics, schedules renewal alerts, and spatially extracts
a per-unit detail sheet.

Modelling conventions (shallow embedding of the TypeScript source):
* JS numbers are modelled as exact rationals (ℚ) plus explicit non-finite
  markers (NaN, ±Infinity).  Decimal string parsing is exact; the source's
  IEEE-754 rounding and overflow-to-Infinity of enormous decimal literals are
  not modelled (no input in scope comes close to either).
* JS strings are Lean `String`s.  `undefined` is modelled as `Option.none`
  at each use site; the JS `null` cell value is the `CellValue.null`
  constructor.
* `String.prototype.replace(/\s+/g,'')`, `trim`, `toLowerCase` are modelled
  at the character-list level with `Char.isWhitespace` / `Char.toLower`; the
  inputs in scope are Korean/ASCII, where the JS and Lean whitespace/casing
  notions agree.
* `Date` values are modelled by their proleptic-Gregorian civil day number
  (days since 1970-01-01); the current clock is passed explicitly.
-/

namespace RealEstate

/- JS number: a finite value or one of the non-finite sentinels. -/
inductive JSNumber
  | fin (q : ℚ)
  | nan
  | posInf
  | negInf
deriving DecidableEq

/- A gviz cell payload: string | number | boolean | null. -/
inductive CellValue
  | str (s : String)
  | num (n : JSNumber)
  | bool (b : Bool)
  | null
deriving DecidableEq

/- Decimal digits of the fractional part n/d (0 ≤ n < d), most significant
first, up to fuel digits.  All numbers rendered by the source have
terminating decimal expansions, on which this is exact. -/
def fracDigits : ℕ → ℕ → ℕ → String
  | 0, _, _ => ""
  | _, 0, _ => ""
  | fuel + 1, n, d =>
    let n10 := n * 10
    toString (n10 / d) ++ fracDigits fuel (n10 % d) d

def jsNumToStringNN (q : ℚ) : String :=
  let n := q.num.toNat
  let d := q.den
  toString (n / d) ++ (if n % d = 0 then "" else "." ++ fracDigits 40 (n % d) d)

/- ECMAScript Number-to-String for finite values (decimal form; the exponent
forms for |q| ≥ 1e21 or < 1e-6 are not modelled — no value in scope reaches
them). -/
def jsNumToString (q : ℚ) : String :=
  if q < 0 then "-" ++ jsNumToStringNN (-q) else jsNumToStringNN q

/- ECMAScript String(v) on a cell payload. -/
def jsString : CellValue → String
  | .str s => s
  | .num (.fin q) => jsNumToString q
  | .num .nan => "NaN"
  | .num .posInf => "Infinity"
  | .num .negInf => "-Infinity"
  | .bool b => if b then "true" else "false"
  | .null => "null"

/- startsWithList l pat: pat occurs at the head of l. -/
def startsWithList : List Char → List Char → Bool
  | _, [] => true
  | [], _ :: _ => false
  | a :: as, b :: bs => (a == b) && startsWithList as bs

def hasSubList (pat : List Char) : List Char → Bool
  | [] => pat.isEmpty
  | c :: rest => startsWithList (c :: rest) pat || hasSubList pat rest

/- JS String.prototype.includes. -/
def jsIncludes (s pat : String) : Bool := hasSubList pat.data s.data

/- value.replace(/\s+/g, '') : drop every whitespace character. -/
def stripWhitespace (s : String) : String := ⟨s.data.filter (fun c => !c.isWhitespace)⟩

/- JS toLowerCase / trim, modelled at the character-list level (ASCII
lowercasing; trim drops leading and trailing whitespace). -/
def jsToLower (s : String) : String := ⟨s.data.map Char.toLower⟩

def jsTrim (s : String) : String :=
  ⟨((s.data.dropWhile Char.isWhitespace).reverse.dropWhile Char.isWhitespace).reverse⟩

/- part_002 normalize: value.replace(/\s+/g, '').toLowerCase(). -/
def normalize (s : String) : String := jsToLower (stripWhitespace s)

/- value.replace(/[^\d.-]/g, '') : keep only digits, '.', '-'. -/
def keepNumericChar (c : Char) : Bool := c.isDigit || c == '.' || c == '-'

def stripNonNumeric (s : String) : String := ⟨s.data.filter keepNumericChar⟩

def digitsVal (l : List Char) : ℕ :=
  l.foldl (fun a c => 10 * a + (c.toNat - 48)) 0

def allDigits (l : List Char) : Bool := l.all Char.isDigit

/- Split a char list at its first '.', if any. -/
def splitDot : List Char → List Char × Option (List Char)
  | [] => ([], none)
  | c :: rest =>
    if c = '.' then ([], some rest)
    else
      let p := splitDot rest
      (c :: p.1, p.2)

/- ECMAScript Number(s) for strings drawn from the alphabet {digits, '.', '-'}
(the only strings the source feeds it, having stripped everything else):
an optional leading '-', then digits, digits '.' digits*, or '.' digits;
anything else (a stray '-', a second '.', "", "-", ".") is NaN, modelled as
none.  Number('') is 0 (the source guards this case separately). -/
def jsNumberOfStripped (s : String) : Option ℚ :=
  match s.data with
  | [] => some 0
  | l =>
    let neg := l.head? == some '-'
    let body := if neg then l.tail else l
    let sign : ℚ := if neg then -1 else 1
    let p := splitDot body
    let intPart := p.1
    match p.2 with
    | none =>
      if !intPart.isEmpty && allDigits intPart then some (sign * digitsVal intPart) else none
    | some frac =>
      if !(intPart ++ frac).isEmpty && allDigits intPart && allDigits frac then
        some (sign * ((digitsVal intPart : ℚ) + (digitsVal frac : ℚ) / (10 ^ frac.length)))
      else none

/- part_002 toNumber(value): a finite number is kept as-is, a non-finite
number is rejected; a string is stripped to [0-9.-] and parsed (empty after
stripping, or an unparsable remainder, gives null); any other payload
(boolean, null, undefined) gives null. -/
def toNumber : Option CellValue → Option ℚ
  | some (.num (.fin q)) => some q
  | some (.num _) => none
  | some (.str s) =>
    let normalized := stripNonNumeric s
    if normalized = "" then none else jsNumberOfStripped normalized
  | _ => none

/- part_001 parseNumericValue(value): textually the same coercion as
part_002's toNumber. -/
def parseNumericValue : Option CellValue → Option ℚ := toNumber

/- Convenience for the frequent call shape toNumber(cellToString(...)). -/
def toNumberS (s : String) : Option ℚ := toNumber (some (CellValue.str s))

/- gviz cell: { v, f? }. -/
structure GvizCell where
  v : CellValue
  f : Option String
deriving DecidableEq

/- gviz row: { c: Array<GvizCell | null> }. -/
structure GvizRow where
  c : List (Option GvizCell)
deriving DecidableEq

structure GvizCol where
  label : Option String
deriving DecidableEq

structure GvizTable where
  cols : List GvizCol
  rows : List GvizRow
deriving DecidableEq

def rowCell (row : GvizRow) (i : ℕ) : Option GvizCell := (row.c.get? i).join

def tableCell (t : GvizTable) (r c : ℕ) : Option GvizCell :=
  match t.rows.get? r with
  | none => none
  | some row => rowCell row c

/- part_002 cellToString: a present, non-blank formatted string wins
(trimmed); otherwise the raw value is stringified and trimmed, with a null
value (or a missing cell) giving ''. -/
def cellToString (cell : Option GvizCell) : String :=
  match cell with
  | none => ""
  | some cell =>
    match cell.f with
    | some f =>
      if jsTrim f ≠ "" then jsTrim f
      else if cell.v = .null then "" else jsTrim (jsString cell.v)
    | none => if cell.v = .null then "" else jsTrim (jsString cell.v)

/- The combination toNumber(cell?.v) ?? toNumber(cellToString(cell)) used by
getNumericAt and getRegistrationHeuristic: the raw value is tried first, the
stringified/formatted view only if the raw value does not coerce. -/
def readNumeric (cell : Option GvizCell) : Option ℚ :=
  match toNumber (cell.map GvizCell.v) with
  | some q => some q
  | none => toNumberS (cellToString cell)

/- part_002 getNumericAt(table, row, col). -/
def getNumericAt (t : GvizTable) (row col : ℕ) : Option ℚ :=
  readNumeric (tableCell t row col)

/- part_002 getNumericBelow(table, anchor, maxDepth = 4): first coercible
value in the next 4 rows of the anchor's column. -/
def getNumericBelow (t : GvizTable) (anchor : ℕ × ℕ) : Option ℚ :=
  (getNumericAt t (anchor.1 + 1) anchor.2).orElse fun _ =>
  (getNumericAt t (anchor.1 + 2) anchor.2).orElse fun _ =>
  (getNumericAt t (anchor.1 + 3) anchor.2).orElse fun _ =>
  getNumericAt t (anchor.1 + 4) anchor.2

def findIdxInRow (target : String) (cells : List (Option GvizCell)) : Option ℕ :=
  cells.findIdx? (fun oc => jsIncludes (normalize (cellToString oc)) target)

def findCellAux (target : String) : ℕ → List GvizRow → Option (ℕ × ℕ)
  | _, [] => none
  | r, row :: rest =>
    match findIdxInRow target row.c with
    | some c => some (r, c)
    | none => findCellAux target (r + 1) rest

/- part_002 findCellByKeyword: row-major scan, first cell whose normalized
string contains the normalized keyword. -/
def findCellByKeyword (t : GvizTable) (keyword : String) : Option (ℕ × ℕ) :=
  findCellAux (normalize keyword) 0 t.rows

/- part_002 getRegistrationHeuristic: in the row directly below the anchor,
collect every coercible cell from the anchor's column rightward; pick the
third if at least three were found, else the last, else null. -/
def getRegistrationHeuristic (t : GvizTable) (anchor : Option (ℕ × ℕ)) : Option ℚ :=
  match anchor with
  | none => none
  | some a =>
    let cells := match t.rows.get? (a.1 + 1) with
      | none => []
      | some row => row.c
    let numbers := (cells.drop a.2).filterMap readNumeric
    if numbers.isEmpty then none
    else if 3 ≤ numbers.length then numbers.get? 2
    else numbers.getLast?

structure UnitScenario where
  ltv : String
  loanAmount : Option ℚ
  equity : Option ℚ
  deposit : Option ℚ
  fixedCost : Option ℚ
  investedTotal : Option ℚ
  monthlyRent : Option ℚ
  monthlyInterest : Option ℚ
  monthlyNet : Option ℚ
  monthlyRoi : Option ℚ
  annualProfit : Option ℚ
  annualRoi : Option ℚ
deriving DecidableEq

/- A scenario row is one whose second cell's string contains '%'. -/
def scenarioRowPred (row : GvizRow) : Bool :=
  jsIncludes (cellToString (rowCell row 1)) "%"

/- The per-row field mapping of parseDetail's scenario extraction: column 1
(via cellToString, '-' when blank), column 2 (via cellToString), and columns
3..12 read from the raw value only. -/
def scenarioOfRow (row : GvizRow) : UnitScenario :=
  { ltv := if cellToString (rowCell row 1) = "" then "-" else cellToString (rowCell row 1)
    loanAmount := toNumberS (cellToString (rowCell row 2))
    equity := toNumber ((rowCell row 3).map GvizCell.v)
    deposit := toNumber ((rowCell row 4).map GvizCell.v)
    fixedCost := toNumber ((rowCell row 5).map GvizCell.v)
    investedTotal := toNumber ((rowCell row 6).map GvizCell.v)
    monthlyRent := toNumber ((rowCell row 7).map GvizCell.v)
    monthlyInterest := toNumber ((rowCell row 8).map GvizCell.v)
    monthlyNet := toNumber ((rowCell row 9).map GvizCell.v)
    monthlyRoi := toNumber ((rowCell row 10).map GvizCell.v)
    annualProfit := toNumber ((rowCell row 11).map GvizCell.v)
    annualRoi := toNumber ((rowCell row 12).map GvizCell.v) }

/- parseDetail's scenarios field: rows.filter(... includes '%').map(...). -/
def parseScenarios (t : GvizTable) : List UnitScenario :=
  (t.rows.filter scenarioRowPred).map scenarioOfRow

/- parseDetail's otherCosts.registration field:
registrationFromAcquisitionTax ?? registrationFromScenario ??
registrationFallback. -/
def parseRegistration (t : GvizTable) : Option ℚ :=
  let registrationFromAcquisitionTax :=
    match findCellByKeyword t "취등록세" with
    | some a => getNumericBelow t a
    | none => none
  let registrationFromScenario :=
    match parseScenarios t with
    | s :: _ => s.fixedCost
    | [] => none
  let registrationFallback := getRegistrationHeuristic t (findCellByKeyword t "등기비용")
  registrationFromAcquisitionTax.orElse fun _ =>
    registrationFromScenario.orElse fun _ => registrationFallback

/- A summary-sheet row object: label → cell payload, in column order.  Keys
are the (unique) derived headers; a missing key models an undefined property
read. -/
def SheetRow := List (String × CellValue)

def rowGet (row : SheetRow) (k : String) : Option CellValue := row.lookup k

/- String(row[k] ?? dflt) where dflt is a string: both an absent property
(undefined) and a null payload fall back. -/
def fieldStr (row : SheetRow) (k dflt : String) : String :=
  match rowGet row k with
  | none => dflt
  | some .null => dflt
  | some v => jsString v

/- part_001 findLikelyColumn: for each candidate key in order, the first
column whose lowercased label contains the key; '' when nothing matches. -/
def findLikelyColumn (columns : List String) : List String → String
  | [] => ""
  | k :: rest =>
    match columns.find? (fun col => jsIncludes (jsToLower col) k) with
    | some col => col
    | none => findLikelyColumn columns rest

structure PortfolioUnit where
  id : String
  site : String
  ownership : String
  tenantStatus : String
  completionDate : String
  contractRenewalRaw : String
  loanRenewalRaw : String
  note : String
  businessNumber : String
  supplyPrice : Option ℚ
  loanAmount : Option ℚ
  interestRate : Option ℚ
  monthlyInterest : Option ℚ
  monthlyRent : Option ℚ
  buildingTax : Option ℚ
  landTax : Option ℚ
  trafficInducementCharge : Option ℚ
deriving DecidableEq

/- The row-level '합계' (total) test: String(row[site] ?? '') with all
whitespace removed contains '합계'. -/
def isSumRow (siteColumn : String) (row : SheetRow) : Bool :=
  jsIncludes (stripWhitespace (fieldStr row siteColumn "")) "합계"

/- The blank-site test that keeps a row: trimmed site string is non-empty. -/
def hasSite (siteColumn : String) (row : SheetRow) : Bool :=
  jsTrim (fieldStr row siteColumn "") ≠ ""

def mkPortfolioUnit (cols : String × String × String × String × String × String ×
    String × String × String × String × String × String × String × String ×
    String × String) (index : ℕ) (row : SheetRow) : PortfolioUnit :=
  match cols with
  | (siteColumn, completionColumn, supplyColumn, loanColumn, rateColumn,
     interestColumn, rentColumn, contractRenewalColumn, loanRenewalColumn,
     ownershipColumn, tenantColumn, noteColumn, businessNumberColumn,
     buildingTaxColumn, landTaxColumn, trafficChargeColumn) =>
    { id := "unit-" ++ toString index
      site := fieldStr row siteColumn ("호실 " ++ toString (index + 1))
      ownership := fieldStr row ownershipColumn "-"
      tenantStatus := fieldStr row tenantColumn "-"
      completionDate := fieldStr row completionColumn "-"
      contractRenewalRaw := fieldStr row contractRenewalColumn ""
      loanRenewalRaw := fieldStr row loanRenewalColumn ""
      note := fieldStr row noteColumn "-"
      businessNumber := fieldStr row businessNumberColumn "-"
      supplyPrice := parseNumericValue (rowGet row supplyColumn)
      loanAmount := parseNumericValue (rowGet row loanColumn)
      interestRate := parseNumericValue (rowGet row rateColumn)
      monthlyInterest := parseNumericValue (rowGet row interestColumn)
      monthlyRent := parseNumericValue (rowGet row rentColumn)
      buildingTax := parseNumericValue (rowGet row buildingTaxColumn)
      landTax := parseNumericValue (rowGet row landTaxColumn)
      trafficInducementCharge := parseNumericValue (rowGet row trafficChargeColumn) }

/- The sixteen findLikelyColumn resolutions of toPortfolioUnits, in source
order, as one tuple (site first). -/
def resolvedColumns (columns : List String) : String × String × String × String ×
    String × String × String × String × String × String × String × String ×
    String × String × String × String :=
  (findLikelyColumn columns ["현장", "호실", "site"],
   findLikelyColumn columns ["준공일", "completion"],
   findLikelyColumn columns ["공급금액", "매입", "price"],
   findLikelyColumn columns ["대출금", "loan"],
   findLikelyColumn columns ["이율", "금리", "rate"],
   findLikelyColumn columns ["대출이자", "interest"],
   findLikelyColumn columns ["월세", "임대료", "rent"],
   findLikelyColumn columns ["계약갱신", "계약 갱신"],
   findLikelyColumn columns ["대출갱신", "대출 갱신"],
   findLikelyColumn columns ["명의"],
   findLikelyColumn columns ["실입주 여부", "입주", "임대"],
   findLikelyColumn columns ["비고", "note"],
   findLikelyColumn columns ["사업자등록번호"],
   findLikelyColumn columns ["재산세", "건문불"],
   findLikelyColumn columns ["토지분"],
   findLikelyColumn columns ["교통유발부담금"])

/- The resolved site column: empty when the first row's labels match none of
the site keywords (or when there are no rows at all). -/
def siteColumnOf (rows : List SheetRow) : String :=
  match rows with
  | [] => ""
  | r0 :: _ => (resolvedColumns (r0.map Prod.fst)).1

/- rows.slice(0, sumRowIndex) when a '합계' row exists, else all rows. -/
def cutRows (siteColumn : String) (rows : List SheetRow) : List SheetRow :=
  match rows.findIdx? (isSumRow siteColumn) with
  | some i => rows.take i
  | none => rows

/- part_001 toPortfolioUnits: resolve columns from the first row's keys, cut
the rows at the first '합계' row, drop blank-site rows, and map the survivors
to units. -/
def toPortfolioUnits (rows : List SheetRow) : List PortfolioUnit :=
  match rows with
  | [] => []
  | r0 :: _ =>
    let cols := resolvedColumns (r0.map Prod.fst)
    ((cutRows cols.1 rows).filter (hasSite cols.1)).mapIdx (mkPortfolioUnit cols)

structure PortfolioSummary where
  totalUnits : ℕ
  leasedUnits : ℕ
  totalSupplyPrice : ℚ
  totalLoanAmount : ℚ
  totalEquity : ℚ
  avgInterestRate : Option ℚ
  monthlyRentIncome : ℚ
  monthlyInterestCost : ℚ
  monthlyNetCashflow : ℚ
  annualNetCashflow : ℚ
  annualReturnOnEquity : Option ℚ
  loanToValue : Option ℚ
deriving DecidableEq

/- The weighted-rate base filter: interestRate !== null && loanAmount !== null
&& loanAmount > 0. -/
def weightedRatePred (u : PortfolioUnit) : Bool :=
  match u.interestRate, u.loanAmount with
  | some _, some la => decide (0 < la)
  | _, _ => false

def isLeased (u : PortfolioUnit) : Bool :=
  let v := jsToLower u.tenantStatus
  jsIncludes v "임대" || jsIncludes v "입주" || jsIncludes v "운영"

/- part_001 summarizePortfolio. -/
def summarizePortfolio (units : List PortfolioUnit) : PortfolioSummary :=
  match units with
  | [] =>
    { totalUnits := 0, leasedUnits := 0, totalSupplyPrice := 0, totalLoanAmount := 0
      totalEquity := 0, avgInterestRate := none, monthlyRentIncome := 0
      monthlyInterestCost := 0, monthlyNetCashflow := 0, annualNetCashflow := 0
      annualReturnOnEquity := none, loanToValue := none }
  | _ :: _ =>
    let totalSupplyPrice := units.foldl (fun acc u => acc + u.supplyPrice.getD 0) (0 : ℚ)
    let totalLoanAmount := units.foldl (fun acc u => acc + u.loanAmount.getD 0) (0 : ℚ)
    let totalEquity := totalSupplyPrice - totalLoanAmount
    let monthlyRentIncome := units.foldl (fun acc u => acc + u.monthlyRent.getD 0) (0 : ℚ)
    let monthlyInterestCost := units.foldl (fun acc u => acc + u.monthlyInterest.getD 0) (0 : ℚ)
    let monthlyNetCashflow := monthlyRentIncome - monthlyInterestCost
    let annualNetCashflow := monthlyNetCashflow * 12
    let weightedRateBase := units.filter weightedRatePred
    let weightedRateDenom := weightedRateBase.foldl (fun acc u => acc + u.loanAmount.getD 0) (0 : ℚ)
    let weightedRateNumerator :=
      weightedRateBase.foldl (fun acc u => acc + u.loanAmount.getD 0 * u.interestRate.getD 0) (0 : ℚ)
    let avgInterestRate :=
      if 0 < weightedRateDenom then some (weightedRateNumerator / weightedRateDenom) else none
    let leasedUnits := (units.filter isLeased).length
    let annualReturnOnEquity :=
      if 0 < totalEquity then some (annualNetCashflow / totalEquity) else none
    let loanToValue :=
      if 0 < totalSupplyPrice then some (totalLoanAmount / totalSupplyPrice) else none
    { totalUnits := units.length, leasedUnits := leasedUnits
      totalSupplyPrice := totalSupplyPrice, totalLoanAmount := totalLoanAmount
      totalEquity := totalEquity, avgInterestRate := avgInterestRate
      monthlyRentIncome := monthlyRentIncome, monthlyInterestCost := monthlyInterestCost
      monthlyNetCashflow := monthlyNetCashflow, annualNetCashflow := annualNetCashflow
      annualReturnOnEquity := annualReturnOnEquity, loanToValue := loanToValue }

/- The per-unit derived figures computed inline in PortfolioPage's table body:
const equity = (supplyPrice ?? 0) > 0 ? (supplyPrice ?? 0) - (loanAmount ?? 0) : 0. -/
def unitEquity (u : PortfolioUnit) : ℚ :=
  if 0 < u.supplyPrice.getD 0 then u.supplyPrice.getD 0 - u.loanAmount.getD 0 else 0

def unitMonthlyNet (u : PortfolioUnit) : ℚ :=
  u.monthlyRent.getD 0 - u.monthlyInterest.getD 0

def unitRoe (u : PortfolioUnit) : Option ℚ :=
  if 0 < unitEquity u then some (unitMonthlyNet u * 12 / unitEquity u) else none

/- Civil day number (days since 1970-01-01, proleptic Gregorian) of a civil
date with month in 1..12; linear in the day field. -/
def daysFromCivil (y m d : ℤ) : ℤ :=
  let y2 := if m ≤ 2 then y - 1 else y
  let era := y2.fdiv 400
  let yoe := y2 - era * 400
  let mp := (m + 9) % 12
  let doy := (153 * mp + 2).fdiv 5 + d - 1
  let doe := yoe * 365 + yoe.fdiv 4 - yoe.fdiv 100 + doy
  era * 146097 + doe - 719468

/- Inverse of daysFromCivil: the normalized civil date of a day number. -/
def civilFromDays (z0 : ℤ) : ℤ × ℤ × ℤ :=
  let z := z0 + 719468
  let era := z.fdiv 146097
  let doe := z - era * 146097
  let yoe := (doe - doe.fdiv 1460 + doe.fdiv 36524 - doe.fdiv 146096).fdiv 365
  let y := yoe + era * 400
  let doy := doe - (365 * yoe + yoe.fdiv 4 - yoe.fdiv 100)
  let mp := (5 * doy + 2).fdiv 153
  let d := doy - (153 * mp + 2).fdiv 5 + 1
  let m := if mp < 10 then mp + 3 else mp - 9
  (if m ≤ 2 then y + 1 else y, m, d)

/- ECMAScript MakeDay(year, monthIndex, day): the month index is folded into
the year (floor division), and an out-of-range day-of-month rolls across
month and year boundaries. -/
def jsMakeDay (year monthIndex day : ℤ) : ℤ :=
  let ym := year * 12 + monthIndex
  let y := ym.fdiv 12
  let m := ym - 12 * y
  daysFromCivil y (m + 1) 1 + (day - 1)

/- One attempt of /(\d{2,4})\D+(\d{1,2})\D+(\d{1,2})/ anchored at the head of
l.  Because \d and \D are complementary, greedy matching with backtracking
collapses to: the leading digit run must have length 2..4, the following
non-digit run length ≥ 1, the next digit run length 1..2, another non-digit
run ≥ 1, then at least one digit; the day capture is the first two digits of
the final run (greedy \d{1,2}). -/
def matchYMDAt (l : List Char) : Option (ℕ × ℕ × ℕ) :=
  let d1 := l.takeWhile Char.isDigit
  let r1 := l.dropWhile Char.isDigit
  if d1.length < 2 || 4 < d1.length then none
  else if r1.isEmpty then none
  else
    let r2 := r1.dropWhile (fun c => !c.isDigit)
    let d2 := r2.takeWhile Char.isDigit
    let r3 := r2.dropWhile Char.isDigit
    if d2.length < 1 || 2 < d2.length then none
    else if r3.isEmpty then none
    else
      let r4 := r3.dropWhile (fun c => !c.isDigit)
      let d3 := r4.takeWhile Char.isDigit
      if d3.isEmpty then none
      else some (digitsVal d1, digitsVal d2, digitsVal (d3.take 2))

/- raw.match(regex): the leftmost start position at which the pattern
matches. -/
def searchYMD : List Char → Option (ℕ × ℕ × ℕ)
  | [] => none
  | c :: rest =>
    match matchYMDAt (c :: rest) with
    | some r => some r
    | none => searchYMD rest

/- part_001 parseKoreanDate, as the civil day number of the constructed Date
(the Date sits at local midnight).  A 2-digit year token gets +2000.  The
final Number.isNaN(date.getTime()) guard only rejects instants outside
±8.64e15 ms, which the captured token ranges (year ≤ 9999, month ≤ 99,
day ≤ 99) can never reach, so it is the identity here. -/
def parseKoreanDate (raw : String) : Option ℤ :=
  match searchYMD raw.data with
  | none => none
  | some (y, m, d) =>
    let year : ℤ := if y < 100 then (y : ℤ) + 2000 else (y : ℤ)
    some (jsMakeDay year ((m : ℤ) - 1) (d : ℤ))

/- The parsed date as a normalized (year, month, day) triple, i.e. what
getFullYear/getMonth+1/getDate report. -/
def parseKoreanDateCivil (raw : String) : Option (ℤ × ℤ × ℤ) :=
  (parseKoreanDate raw).map civilFromDays

/- part_001 calculateDaysLeft, with the clock passed explicitly as today's
civil day number: floor((targetMidnight − todayMidnight) / msPerDay) is the
exact difference of day numbers (both instants sit at midnight). -/
def calculateDaysLeft (today : ℤ) (rawDate : String) : Option ℤ :=
  (parseKoreanDate rawDate).map (fun target => target - today)

structure RenewalAlert where
  id : String
  site : String
  kind : String
  rawDate : String
  daysLeft : ℤ
deriving DecidableEq

/- The emission window of buildRenewalAlerts: 0 ≤ daysLeft ≤ 120. -/
def inWindow (d : ℤ) : Bool := decide (0 ≤ d) && decide (d ≤ 120)

def contractAlerts (today : ℤ) (u : PortfolioUnit) : List RenewalAlert :=
  match calculateDaysLeft today u.contractRenewalRaw with
  | some d =>
    if inWindow d then
      [{ id := u.id ++ "-contract", site := u.site, kind := "계약갱신"
         rawDate := u.contractRenewalRaw, daysLeft := d }]
    else []
  | none => []

def loanAlerts (today : ℤ) (u : PortfolioUnit) : List RenewalAlert :=
  match calculateDaysLeft today u.loanRenewalRaw with
  | some d =>
    if inWindow d then
      [{ id := u.id ++ "-loan", site := u.site, kind := "대출갱신"
         rawDate := u.loanRenewalRaw, daysLeft := d }]
    else []
  | none => []

def alertsOfUnit (today : ℤ) (u : PortfolioUnit) : List RenewalAlert :=
  contractAlerts today u ++ loanAlerts today u

/- The alerts array as pushed, unit by unit (contract first, then loan). -/
def collectRenewalAlerts (today : ℤ) (units : List PortfolioUnit) : List RenewalAlert :=
  units.flatMap (alertsOfUnit today)

def alertLe (a b : RenewalAlert) : Bool := decide (a.daysLeft ≤ b.daysLeft)

/- part_001 buildRenewalAlerts: collect, then
alerts.sort((a, b) => a.daysLeft - b.daysLeft).  ECMAScript mandates a
stable sort, and ascending-by-key stable sorting has a unique result, so
Lean's stable mergeSort is an exact model. -/
def buildRenewalAlerts (today : ℤ) (units : List PortfolioUnit) : List RenewalAlert :=
  (collectRenewalAlerts today units).mergeSort alertLe

/- A PortfolioUnit with given numeric fields and all text fields blank, for
concrete instances. -/
def plainUnit (id : String) (supply loan rate interest rent : Option ℚ) : PortfolioUnit :=
  { id := id, site := id, ownership := "", tenantStatus := "", completionDate := ""
    contractRenewalRaw := "", loanRenewalRaw := "", note := "", businessNumber := ""
    supplyPrice := supply, loanAmount := loan, interestRate := rate
    monthlyInterest := interest, monthlyRent := rent, buildingTax := none
    landTax := none, trafficInducementCharge := none }

theorem jsTrim_empty : jsTrim "" = "" := rfl

theorem orElse_eq_ite {α : Type} (o : Option α) (f : Unit → Option α) :
    o.orElse f = if o.isSome then o else f () := by
  cases o <;> rfl

/-- C8: numeric coercion (parseNumericValue / toNumber) keeps an
already-finite numeric value as-is, rejects non-finite numbers to null, and
for a string strips every character that is not a digit, '.', or '-',
returning null when the stripped remainder is empty or unparsable and the
parsed number otherwise; "1,234,500원" gives 1234500, "12.5%" gives 12.5,
and "" and "-" give null. -/
theorem c8_numeric_coercion (q : ℚ) (s : String) :
    toNumber (some (CellValue.num (JSNumber.fin q))) = some q
    ∧ toNumber (some (CellValue.num JSNumber.nan)) = none
    ∧ toNumber (some (CellValue.num JSNumber.posInf)) = none
    ∧ toNumber (some (CellValue.num JSNumber.negInf)) = none
    ∧ parseNumericValue (some (CellValue.str s)) = toNumber (some (CellValue.str s))
    ∧ toNumber (some (CellValue.str s)) =
        (if stripNonNumeric s = "" then none else jsNumberOfStripped (stripNonNumeric s))
    ∧ toNumberS "1,234,500원" = some 1234500
    ∧ toNumberS "12.5%" = some (125 / 10)
    ∧ toNumberS "" = none
    ∧ toNumberS "-" = none := by
  refine ⟨rfl, rfl, rfl, rfl, rfl, rfl, ?_, ?_, rfl, ?_⟩
  all_goals
    simp +decide [toNumberS, toNumber, stripNonNumeric, keepNumericChar,
      jsNumberOfStripped, splitDot, digitsVal, allDigits]
  all_goals norm_num

def c1Table : GvizTable :=
  { cols := [], rows := [{ c := [some { v := CellValue.num (JSNumber.fin 5), f := some "7" }] }] }

/-- C1 counterexample: in a cell carrying both a raw value (5) and a
formatted display string ("7", which parses to 7), getNumericAt returns the
raw value 5, strictly below the formatted-string parse 7 — it does not
prefer the number parsed from the formatted string. -/
theorem c1_counterexample :
    (tableCell c1Table 0 0).bind GvizCell.f = some "7"
    ∧ toNumberS "7" = some 7
    ∧ getNumericAt c1Table 0 0 = some 5
    ∧ (getNumericAt c1Table 0 0).getD 0 < (toNumberS "7").getD 0 := by
  have h2 : toNumberS "7" = some 7 := by
    simp +decide [toNumberS, toNumber, stripNonNumeric, keepNumericChar,
      jsNumberOfStripped, splitDot, digitsVal, allDigits]
  have h3 : getNumericAt c1Table 0 0 = some 5 := rfl
  refine ⟨rfl, h2, h3, ?_⟩
  rw [h2, h3]
  norm_num

/-- C1 (amended): a numeric cell read tries the raw value first and falls
back to the string view (cellToString, which does prefer the formatted
string) only when the raw value does not coerce to a finite number; in a
scenario row, the column-2 read goes through cellToString while the reads of
columns 3..12 use the raw value only (equity and annualRoi shown). -/
theorem c1_amended_raw_value_first (t : GvizTable) (r c : ℕ) (row : GvizRow) :
    getNumericAt t r c =
      (if (toNumber ((tableCell t r c).map GvizCell.v)).isSome
        then toNumber ((tableCell t r c).map GvizCell.v)
        else toNumberS (cellToString (tableCell t r c)))
    ∧ (scenarioOfRow row).loanAmount = toNumberS (cellToString (rowCell row 2))
    ∧ (scenarioOfRow row).equity = toNumber ((rowCell row 3).map GvizCell.v)
    ∧ (scenarioOfRow row).annualRoi = toNumber ((rowCell row 12).map GvizCell.v) := by
  refine ⟨?_, rfl, rfl, rfl⟩
  unfold getNumericAt readNumeric
  cases h : toNumber ((tableCell t r c).map GvizCell.v) <;> simp [h]

/-- C2: the code wraps invalid calendar components instead of rejecting
them — "2025년 13월 5일" parses to the date 2026-01-05 (month 13 rolls into
the next year), calculateDaysLeft is therefore non-null, and for a clock 35
days earlier the wrapped date lies inside the alert window; day 32 likewise
rolls into the next month.  The isNaN guard in the source never fires on
such inputs, so the claim (and the spec's "must be rejected, not silently
wrapped") states the intent, which the code does not implement. -/
theorem c2_code_wraps_invalid_dates :
    parseKoreanDateCivil "2025년 13월 5일" = some (2026, 1, 5)
    ∧ calculateDaysLeft (daysFromCivil 2025 12 1) "2025년 13월 5일" = some 35
    ∧ inWindow 35 = true
    ∧ parseKoreanDateCivil "2025년 1월 32일" = some (2025, 2, 1) := by
  exact ⟨by decide, by decide, by decide, by decide⟩

def c3Row : SheetRow := [("금액", CellValue.num (JSNumber.fin 10))]

/-- C3 counterexample: a one-row table whose only label matches none of the
site keywords.  The site column resolves to '', yet toPortfolioUnits drops
the row: it yields no units, rather than keeping the row under an
auto-generated fallback site label. -/
theorem c3_counterexample :
    findLikelyColumn (c3Row.map Prod.fst) ["현장", "호실", "site"] = ""
    ∧ toPortfolioUnits [c3Row] = []
    ∧ [c3Row].length = 1 := by
  exact ⟨by decide, rfl, rfl⟩

/-- C3 (amended): when the site column cannot be resolved — and, as for any
fetched table, no row object carries an empty-string key — every row's site
field reads back as '', the blank-site filter removes every row, and
toPortfolioUnits returns the empty unit list; rows are not kept and the
fallback site label is never used. -/
theorem c3_amended_unresolved_site_yields_empty (r0 : SheetRow) (rows : List SheetRow)
    (hcol : findLikelyColumn (r0.map Prod.fst) ["현장", "호실", "site"] = "")
    (hkeys : ∀ row ∈ r0 :: rows, rowGet row "" = none) :
    toPortfolioUnits (r0 :: rows) = [] := by
  have hc1 : (resolvedColumns (r0.map Prod.fst)).1 = "" := hcol
  have hsite : ∀ row ∈ r0 :: rows, hasSite "" row = false := by
    intro row hrow
    simp [hasSite, fieldStr, hkeys row hrow, jsTrim_empty]
  have hcut : ∀ row ∈ cutRows "" (r0 :: rows), row ∈ r0 :: rows := by
    intro row hrow
    unfold cutRows at hrow
    rcases h : (r0 :: rows).findIdx? (isSumRow "") with _ | i <;> rw [h] at hrow
    · exact hrow
    · exact (List.take_sublist i (r0 :: rows)).subset hrow
  have hfil : (cutRows "" (r0 :: rows)).filter (hasSite "") = [] := by
    rw [List.filter_eq_nil_iff]
    intro a ha
    simp [hsite a (hcut a ha)]
  show ((cutRows (resolvedColumns (r0.map Prod.fst)).1 (r0 :: rows)).filter
      (hasSite (resolvedColumns (r0.map Prod.fst)).1)).mapIdx
      (mkPortfolioUnit (resolvedColumns (r0.map Prod.fst))) = []
  rw [hc1, hfil]
  rfl

/-- C3 witness: the amended statement applied to the concrete one-row table
with no site-matching label. -/
theorem c3_amended_witness : toPortfolioUnits [c3Row] = [] :=
  c3_amended_unresolved_site_yields_empty c3Row [] (by decide) (by decide)

def c4Unit : PortfolioUnit := plainUnit "u0" none (some 100) none none none

/-- C4 counterexample: for a unit with null supplyPrice and loanAmount 100
the claim's unclamped nulls-as-0 formula gives −100, but the table's unit
equity is the clamped 0 — the code zeroes unit equity whenever
supplyPrice ?? 0 is not positive. -/
theorem c4_counterexample :
    unitEquity c4Unit = 0
    ∧ c4Unit.supplyPrice.getD 0 - c4Unit.loanAmount.getD 0 = -100
    ∧ c4Unit.supplyPrice.getD 0 - c4Unit.loanAmount.getD 0 < unitEquity c4Unit := by
  refine ⟨?_, ?_, ?_⟩ <;> simp [unitEquity, c4Unit, plainUnit]

/-- C4 (amended): the per-unit monthly net equals the single-unit aggregate
cashflow and the per-unit ROI is null exactly when unit equity is not
positive (same formula and null policy as the aggregate), but unit equity
matches the (unclamped) aggregate totalEquity only when supplyPrice (null
as 0) is positive and is clamped to 0 otherwise. -/
theorem c4_amended_unit_figures (u : PortfolioUnit) :
    unitMonthlyNet u = (summarizePortfolio [u]).monthlyNetCashflow
    ∧ unitEquity u = (if 0 < u.supplyPrice.getD 0 then (summarizePortfolio [u]).totalEquity else 0)
    ∧ (summarizePortfolio [u]).totalEquity = u.supplyPrice.getD 0 - u.loanAmount.getD 0
    ∧ unitRoe u = (if 0 < unitEquity u then some (unitMonthlyNet u * 12 / unitEquity u) else none) := by
  refine ⟨?_, ?_, ?_, rfl⟩ <;> simp [unitMonthlyNet, unitEquity, summarizePortfolio]

def c7a : PortfolioUnit := plainUnit "a" none (some 1000) (some (3 / 100)) none none

def c7b : PortfolioUnit := plainUnit "b" none (some 2000) (some (5 / 100)) none none

def c7c : PortfolioUnit := plainUnit "c" none (some 0) (some (4 / 100)) none none

def c7d : PortfolioUnit := plainUnit "d" none none (some (4 / 100)) none none

/-- C7: the weighted average interest rate ranges over exactly the units
with a non-null rate, a non-null loan amount and a positive loan amount, is
Σ(loan×rate)/Σ(loan) over those units, and is null when the denominator is
0 — in particular when every loan amount is 0 or null; on loans
[1000, 2000] at rates [0.03, 0.05] it is 130/3000. -/
theorem c7_weighted_avg_rate (units : List PortfolioUnit) :
    (summarizePortfolio units).avgInterestRate =
      (let base := units.filter weightedRatePred
       let denom := base.foldl (fun acc u => acc + u.loanAmount.getD 0) (0 : ℚ)
       if 0 < denom then
         some (base.foldl (fun acc u => acc + u.loanAmount.getD 0 * u.interestRate.getD 0)
            (0 : ℚ) / denom)
       else none)
    ∧ (∀ u, weightedRatePred u =
        (u.interestRate.isSome && u.loanAmount.isSome && decide (0 < u.loanAmount.getD 0)))
    ∧ (summarizePortfolio [c7a, c7b]).avgInterestRate = some (130 / 3000)
    ∧ (summarizePortfolio [c7c, c7d]).avgInterestRate = none := by
  refine ⟨?_, ?_, ?_, ?_⟩
  · cases units with
    | nil => simp [summarizePortfolio]
    | cons u us => rfl
  · intro u
    rcases h1 : u.interestRate with _ | r <;> rcases h2 : u.loanAmount with _ | la <;>
      simp [weightedRatePred, h1, h2]
  · simp [summarizePortfolio, c7a, c7b, plainUnit, weightedRatePred]
    norm_num
  · simp [summarizePortfolio, c7c, c7d, plainUnit, weightedRatePred]

def c9Table : GvizTable :=
  { cols := []
    rows := [
      { c := [some { v := CellValue.str "header", f := none },
              some { v := CellValue.str "no", f := none }] },
      { c := [none, some { v := CellValue.str "60%", f := none },
              some { v := CellValue.str "1,000", f := none },
              some { v := CellValue.num (JSNumber.fin 2), f := none }] },
      { c := [none, some { v := CellValue.str "x", f := none }] },
      { c := [none, some { v := CellValue.str "70%", f := none }] },
      { c := [none, some { v := CellValue.num (JSNumber.fin 3), f := some "80%" }] }] }

/-- C9: the scenario list is exactly the rows whose second cell's string
contains '%', in table order and regardless of absolute row position, each
mapped over fixed column offsets 1..12 to the named scenario fields; the
example table with three such rows yields exactly three scenarios with the
column-3 raw value landing in the equity field. -/
theorem c9_scenarios (t : GvizTable) (row : GvizRow) :
    parseScenarios t =
      (t.rows.filter (fun r => jsIncludes (cellToString (rowCell r 1)) "%")).map scenarioOfRow
    ∧ (parseScenarios t).length = t.rows.countP scenarioRowPred
    ∧ scenarioOfRow row =
      { ltv := if cellToString (rowCell row 1) = "" then "-" else cellToString (rowCell row 1)
        loanAmount := toNumberS (cellToString (rowCell row 2))
        equity := toNumber ((rowCell row 3).map GvizCell.v)
        deposit := toNumber ((rowCell row 4).map GvizCell.v)
        fixedCost := toNumber ((rowCell row 5).map GvizCell.v)
        investedTotal := toNumber ((rowCell row 6).map GvizCell.v)
        monthlyRent := toNumber ((rowCell row 7).map GvizCell.v)
        monthlyInterest := toNumber ((rowCell row 8).map GvizCell.v)
        monthlyNet := toNumber ((rowCell row 9).map GvizCell.v)
        monthlyRoi := toNumber ((rowCell row 10).map GvizCell.v)
        annualProfit := toNumber ((rowCell row 11).map GvizCell.v)
        annualRoi := toNumber ((rowCell row 12).map GvizCell.v) }
    ∧ (parseScenarios c9Table).length = 3
    ∧ (parseScenarios c9Table).map UnitScenario.ltv = ["60%", "70%", "80%"]
    ∧ (parseScenarios c9Table).map UnitScenario.equity = [some 2, none, none] := by
  refine ⟨rfl, ?_, rfl, by decide, by decide, by decide⟩
  simp [parseScenarios, List.countP_eq_length_filter, scenarioRowPred]

def numCell (q : ℚ) : Option GvizCell := some { v := CellValue.num (JSNumber.fin q), f := none }

def strCell (s : String) : Option GvizCell := some { v := CellValue.str s, f := none }

/- Heuristic fixtures: a '등기비용' anchor at (0,0) with 2, 3 and 5 coercible
cells in the row below. -/
def c10TwoNums : GvizTable :=
  { cols := [], rows := [
      { c := [strCell "등기비용"] },
      { c := [strCell "x", numCell 10, numCell 20] }] }

def c10ThreeNums : GvizTable :=
  { cols := [], rows := [
      { c := [strCell "등기비용"] },
      { c := [numCell 1, numCell 2, numCell 3] }] }

def c10FiveNums : GvizTable :=
  { cols := [], rows := [
      { c := [strCell "등기비용"] },
      { c := [numCell 1, numCell 2, numCell 3, numCell 4, numCell 5] }] }

/- An acquisition-tax anchor two rows above its value, plus a scenario row
whose fixedCost (column 5) differs: stage one must win. -/
def c10AcqTable : GvizTable :=
  { cols := [], rows := [
      { c := [strCell "취등록세"] },
      { c := [none, strCell "50%", none, none, none, numCell 999] },
      { c := [numCell 777] }] }

/- No acquisition-tax anchor: the first scenario row's fixedCost must win
over the '등기비용' heuristic. -/
def c10ScenTable : GvizTable :=
  { cols := [], rows := [
      { c := [none, strCell "60%", none, none, none, numCell 999] },
      { c := [strCell "등기비용"] },
      { c := [numCell 1, numCell 2, numCell 3] }] }

/-- C10: the reported registration cost follows the three-stage fallback:
the first coercible value within 4 rows below the '취등록세' anchor when
that stage yields a value; otherwise the first scenario row's fixedCost when
non-null; otherwise the '등기비용' heuristic, which collects coercible cells
rightward from the anchor's column in the row directly below and picks the
third if at least three exist, else the last, else null. -/
theorem c10_registration (t : GvizTable) (r c : ℕ) :
    parseRegistration t =
      (let fromAcq := match findCellByKeyword t "취등록세" with
        | some a => getNumericBelow t a
        | none => none
       let fromScenario := match parseScenarios t with
        | s :: _ => s.fixedCost
        | [] => none
       if fromAcq.isSome then fromAcq
       else if fromScenario.isSome then fromScenario
       else getRegistrationHeuristic t (findCellByKeyword t "등기비용"))
    ∧ getNumericBelow t (r, c) =
      (if (getNumericAt t (r + 1) c).isSome then getNumericAt t (r + 1) c
       else if (getNumericAt t (r + 2) c).isSome then getNumericAt t (r + 2) c
       else if (getNumericAt t (r + 3) c).isSome then getNumericAt t (r + 3) c
       else getNumericAt t (r + 4) c)
    ∧ getRegistrationHeuristic t none = none
    ∧ getRegistrationHeuristic c10TwoNums (some (0, 0)) = some 20
    ∧ getRegistrationHeuristic c10ThreeNums (some (0, 0)) = some 3
    ∧ getRegistrationHeuristic c10FiveNums (some (0, 0)) = some 3
    ∧ parseRegistration c10AcqTable = some 777
    ∧ parseRegistration c10ScenTable = some 999 := by
  refine ⟨?_, ?_, rfl, by decide, by decide, by decide, by decide, by decide⟩
  · simp only [parseRegistration, orElse_eq_ite]
  · simp only [getNumericBelow, orElse_eq_ite]

/- The column tuple toPortfolioUnits resolves, as a function of the whole
row list (resolved from the first row's keys). -/
def resolvedColumnsOf (rows : List SheetRow) : String × String × String × String ×
    String × String × String × String × String × String × String × String ×
    String × String × String × String :=
  match rows with
  | [] => resolvedColumns []
  | r0 :: _ => resolvedColumns (r0.map Prod.fst)

theorem toPortfolioUnits_eq (rows : List SheetRow) (h : rows ≠ []) :
    toPortfolioUnits rows =
      ((cutRows (siteColumnOf rows) rows).filter (hasSite (siteColumnOf rows))).mapIdx
        (mkPortfolioUnit (resolvedColumnsOf rows)) := by
  cases rows with
  | nil => exact absurd rfl h
  | cons r0 rest => rfl

/-- C6: toPortfolioUnits excludes the first row whose site field (with all
whitespace removed) contains '합계' together with every row after it, and
additionally excludes every blank-site row: a block of data rows followed by
such a total row yields exactly the data rows' units, and with no total row
present every non-blank-site row is kept. -/
theorem c6_total_row_cut :
    (∀ (pre post : List SheetRow) (total : SheetRow),
      (∀ r ∈ pre, isSumRow (siteColumnOf (pre ++ total :: post)) r = false) →
      isSumRow (siteColumnOf (pre ++ total :: post)) total = true →
      (∀ r ∈ pre, hasSite (siteColumnOf (pre ++ total :: post)) r = true) →
      (toPortfolioUnits (pre ++ total :: post)).length = pre.length)
    ∧ (∀ rows : List SheetRow,
      (∀ r ∈ rows, isSumRow (siteColumnOf rows) r = false) →
      (toPortfolioUnits rows).length = (rows.filter (hasSite (siteColumnOf rows))).length) := by
  constructor
  · intro pre post total h1 h2 h3
    have hne : pre ++ total :: post ≠ [] := by simp
    rw [toPortfolioUnits_eq _ hne, List.length_mapIdx]
    have hidx : (pre ++ total :: post).findIdx? (isSumRow (siteColumnOf (pre ++ total :: post)))
        = some pre.length := by
      rw [List.findIdx?_append, List.findIdx?_eq_none_iff.mpr h1]
      have hcons : (total :: post).findIdx? (isSumRow (siteColumnOf (pre ++ total :: post)))
          = some 0 := by
        simp [List.findIdx?, h2]
      rw [hcons]
      simp
    have hcut : cutRows (siteColumnOf (pre ++ total :: post)) (pre ++ total :: post) = pre := by
      unfold cutRows
      rw [hidx]
      exact List.take_left pre (total :: post)
    rw [hcut, List.filter_eq_self.mpr h3]
  · intro rows hall
    cases rows with
    | nil => rfl
    | cons r0 rest =>
      rw [toPortfolioUnits_eq _ (by simp), List.length_mapIdx]
      have hcut : cutRows (siteColumnOf (r0 :: rest)) (r0 :: rest) = r0 :: rest := by
        unfold cutRows
        rw [List.findIdx?_eq_none_iff.mpr hall]
      rw [hcut]

def c6SiteRow (name : String) : SheetRow := [("현장", CellValue.str name)]

def c6Pre : List SheetRow :=
  [c6SiteRow "A101", c6SiteRow "A102", c6SiteRow "B201", c6SiteRow "B202", c6SiteRow "C301"]

def c6Rows : List SheetRow := c6Pre ++ c6SiteRow " 합 계" :: [c6SiteRow "ignored"]

def c6NoTotal : List SheetRow := [c6SiteRow "A101", c6SiteRow "A102"]

/-- C6 witness: five data rows followed by a whitespace-spaced total row and
a trailing row yield exactly five units, and a table with no total row keeps
every non-blank-site row. -/
theorem c6_total_row_cut_witness :
    (toPortfolioUnits c6Rows).length = c6Pre.length
    ∧ (toPortfolioUnits c6NoTotal).length =
        (c6NoTotal.filter (hasSite (siteColumnOf c6NoTotal))).length := by
  constructor
  · exact c6_total_row_cut.1 c6Pre [c6SiteRow "ignored"] (c6SiteRow " 합 계")
      (by decide) (by decide) (by decide)
  · exact c6_total_row_cut.2 c6NoTotal (by decide)

theorem alertLe_trans (a b c : RenewalAlert) :
    alertLe a b = true → alertLe b c = true → alertLe a c = true := by
  simp [alertLe]
  omega

theorem alertLe_total (a b : RenewalAlert) : (alertLe a b || alertLe b a) = true := by
  simp [alertLe]
  omega

/- A stable ascending sort leaves each equal-key class in encounter order:
filtering the sorted list by any key reproduces the filtered input. -/
theorem mergeSort_filter_daysLeft (l : List RenewalAlert) (k : ℤ) :
    (l.mergeSort alertLe).filter (fun a => a.daysLeft == k) =
      l.filter (fun a => a.daysLeft == k) := by
  have hpair : (l.filter (fun a => a.daysLeft == k)).Pairwise (fun a b => alertLe a b = true) := by
    apply List.pairwise_of_forall_mem_list
    intro a ha b hb
    have ha2 := (List.mem_filter.mp ha).2
    have hb2 := (List.mem_filter.mp hb).2
    simp_all [alertLe]
  have hsub : (l.filter (fun a => a.daysLeft == k)).Sublist (l.mergeSort alertLe) :=
    List.sublist_mergeSort alertLe_trans alertLe_total hpair (List.filter_sublist l)
  have hsub2 : (l.filter (fun a => a.daysLeft == k)).Sublist
      ((l.mergeSort alertLe).filter (fun a => a.daysLeft == k)) := by
    have h := List.Sublist.filter (fun a => a.daysLeft == k) hsub
    rwa [List.filter_filter, show (fun a => (a.daysLeft == k) && (a.daysLeft == k))
      = (fun a : RenewalAlert => a.daysLeft == k) from funext (fun a => Bool.and_self _)] at h
  have hlen : ((l.mergeSort alertLe).filter (fun a => a.daysLeft == k)).length
      = (l.filter (fun a => a.daysLeft == k)).length :=
    (List.Perm.filter _ (List.mergeSort_perm l alertLe)).length_eq
  exact (hsub2.eq_of_length hlen.symm).symm

/-- C5: buildRenewalAlerts emits a contract alert and, independently, a loan
alert for a unit exactly when the parsed daysLeft lies in [0, 120] (120
included, 121 and past dates excluded), and returns the alerts sorted
ascending by daysLeft with ties keeping encounter order — stability stated
as: filtering the result by any daysLeft key reproduces the
encounter-ordered collection. -/
theorem c5_renewal_alerts (today : ℤ) (units : List PortfolioUnit) :
    List.Sorted (fun a b : RenewalAlert => a.daysLeft ≤ b.daysLeft)
      (buildRenewalAlerts today units)
    ∧ (buildRenewalAlerts today units).Perm (collectRenewalAlerts today units)
    ∧ (∀ k : ℤ, (buildRenewalAlerts today units).filter (fun a => a.daysLeft == k) =
        (collectRenewalAlerts today units).filter (fun a => a.daysLeft == k))
    ∧ collectRenewalAlerts today units =
        units.flatMap (fun u => contractAlerts today u ++ loanAlerts today u)
    ∧ (∀ u, contractAlerts today u =
        (match calculateDaysLeft today u.contractRenewalRaw with
          | some d =>
            if inWindow d then
              [⟨u.id ++ "-contract", u.site, "계약갱신", u.contractRenewalRaw, d⟩]
            else []
          | none => []))
    ∧ (∀ u, loanAlerts today u =
        (match calculateDaysLeft today u.loanRenewalRaw with
          | some d =>
            if inWindow d then
              [⟨u.id ++ "-loan", u.site, "대출갱신", u.loanRenewalRaw, d⟩]
            else []
          | none => []))
    ∧ (∀ d : ℤ, inWindow d = (decide (0 ≤ d) && decide (d ≤ 120)))
    ∧ inWindow 120 = true ∧ inWindow 121 = false ∧ inWindow (-1) = false := by
  refine ⟨?_, ?_, ?_, rfl, fun u => rfl, fun u => rfl, fun d => rfl,
    by decide, by decide, by decide⟩
  · have h := @List.sorted_mergeSort _ alertLe alertLe_trans alertLe_total
      (collectRenewalAlerts today units)
    exact h.imp (fun hab => by simpa [alertLe] using hab)
  · exact List.mergeSort_perm _ alertLe
  · intro k
    exact mergeSort_filter_daysLeft _ k

end RealEstate
